import Mathlib

/-!
Shallow embedding of `src/linphone-desktop/src/components/notifier/Notifier.cpp`.

The Notifier class coordinates transient notification popups: it creates QML
component instances, stacks them vertically through a shared layout offset,
counts live instances, and tears instances down on a single-shot timer or on a
window visibility change. The mutable state guarded by the single mutex is the
pair of member fields `m_n_instances` and `m_offset`, both C++ `int` values and
modelled here as unbounded `Int` (no execution path brings them near the
machine-word bounds).

External effects of the UI toolkit (QVariant conversion of the popup height
property, success of `QObject::setProperty`) are inputs to the embedding,
supplied through the `CreateEnv` record: the code branches on their outcome
and each branch is modelled exactly as written.
-/

/-! ## Hardcoded constants (lines 45-52 of Notifier.cpp) -/

def NOTIFICATION_SPACING : Int := 10

def N_MAX_NOTIFICATIONS : Int := 15

def MAX_TIMEOUT : Int := 60000

def NOTIFICATION_TIMEOUT_RECEIVED_MESSAGE : Int := 10000

def NOTIFICATION_TIMEOUT_RECEIVED_FILE_MESSAGE : Int := 10000

def NOTIFICATION_TIMEOUT_RECEIVED_CALL : Int := 10000

/-! ## Data model -/

/-- The three notification kinds of the `Notifier::NotificationType` enum,
each bound to one QML component in `m_components`. -/
inductive NotificationType
  | MessageReceived
  | FileMessageReceived
  | CallReceived
deriving DecidableEq, Repr

/-- The mutex-guarded mutable members of `Notifier`: the live-instance counter
`m_n_instances` and the stacking offset `m_offset`. -/
structure NotifierState where
  n_instances : Int
  offset : Int
deriving DecidableEq, Repr

/-- Outcomes of the UI-toolkit calls made while creating one notification
instance: the result of `QVariant::toInt` on the `notificationHeight` property
(`none` models the conversion reporting failure through its bool out
parameter), and whether `setProperty` on `notificationOffset` succeeds. -/
structure CreateEnv where
  heightVariantToInt : Option Int
  setOffsetPropertyOk : Bool
deriving DecidableEq, Repr

/-- A successfully created notification instance: the component kind it was
instantiated from, the offset value written to its `notificationOffset`
property, and its validated `notificationHeight` value. -/
structure Popup where
  type : NotificationType
  assignedOffset : Int
  height : Int
deriving DecidableEq, Repr

/-- Result of `Notifier::createNotification`: `nullAtCapacity` is the early
`return nullptr` when `m_n_instances >= N_MAX_NOTIFICATIONS`;
`nullAfterDelete` is the `delete object; return nullptr` path after a failed
height read or offset write; `created` returns the new instance. -/
inductive CreateResult
  | nullAtCapacity
  | nullAfterDelete
  | created (popup : Popup)
deriving DecidableEq, Repr

/-- Whether the C++ function returned `nullptr`. -/
def CreateResult.isNull : CreateResult → Bool
  | .created _ => false
  | _ => true

/-- Whether the C++ function executed `delete object` on the freshly created
instance before returning. -/
def CreateResult.objectDeleted : CreateResult → Bool
  | .nullAfterDelete => true
  | _ => false

/-! ## Operations -/

/-- Lines 56-67: `getNotificationSize` converts the property value to an int
and returns -1 when the conversion failed or the value is negative. -/
def getNotificationSize (variantToInt : Option Int) : Int :=
  match variantToInt with
  | none => -1
  | some size => if size < 0 then -1 else size

/-- Lines 109-135: `Notifier::createNotification`. Under the mutex: reject when
the counter is at capacity; otherwise create the instance, read its height,
write the current offset into it, and on success advance the offset by
height plus spacing and increment the counter. The local variable named
`offset` in the C++ body holds the popup height. -/
def createNotification (s : NotifierState) (type : NotificationType)
    (env : CreateEnv) : CreateResult × NotifierState :=
  if s.n_instances ≥ N_MAX_NOTIFICATIONS then
    (.nullAtCapacity, s)
  else
    let offset := getNotificationSize env.heightVariantToInt
    if offset = -1 ∨ env.setOffsetPropertyOk = false then
      (.nullAfterDelete, s)
    else
      (.created { type := type, assignedOffset := s.offset, height := offset },
       { n_instances := s.n_instances + 1,
         offset := (offset + s.offset) + NOTIFICATION_SPACING })

/-- Lines 155-171: the lambda connected to `QQuickWindow::visibleChanged`.
Under the mutex it decrements the counter and resets the offset to zero when
the counter reached zero. -/
def onVisibleChanged (s : NotifierState) : NotifierState :=
  let n := s.n_instances - 1
  { n_instances := n, offset := if n = 0 then 0 else s.offset }

/-- The action the single-shot timer callback performs (line 176:
`delete notification`). -/
inductive TimerAction
  | deleteNotification
deriving DecidableEq, Repr

/-- Effects of `Notifier::showNotification`: the delay passed to
`QTimer::singleShot`, what its callback does, and the state transition the
connected `visibleChanged` handler performs on each invocation. -/
structure ShowEffects where
  singleShotDelay : Int
  singleShotAction : TimerAction
  dismissHandler : NotifierState → NotifierState

/-- Lines 137-179: `Notifier::showNotification`. Clamps the timeout to
`MAX_TIMEOUT`, invokes the `show` method, connects the dismissal handler to
the window visibility change, and schedules the deletion timer. -/
def showNotification (timeout : Int) : ShowEffects :=
  let t := if timeout > MAX_TIMEOUT then MAX_TIMEOUT else timeout
  { singleShotDelay := t
    singleShotAction := .deleteNotification
    dismissHandler := onVisibleChanged }

/-! ## Notify entry points (lines 183-229) -/

/-- Values stored in the `QVariantMap` forwarded as `notificationData`:
strings, unsigned file sizes, the main application window reference, and the
call model reference. -/
inductive QVariantValue
  | str (s : String)
  | uint (n : Nat)
  | mainWindow
  | callModel
deriving DecidableEq, Repr

/-- The already-computed domain data of a `linphone::ChatMessage` that the
notify operations read: text, sender address URI, file transfer path and
size. -/
structure ChatMessage where
  text : String
  fromAddressUriOnly : String
  fileTransferFilepath : String
  fileTransferSize : Nat
deriving DecidableEq, Repr

/-- Effects of one successful notify operation: the created popup, the data
map set on its `notificationData` property (in insertion order of the C++
body), and the timeout passed to `showNotification`. -/
structure NotifyEffects where
  popup : Popup
  data : List (String × QVariantValue)
  timeout : Int
deriving DecidableEq, Repr

/-- Lines 183-195: `Notifier::notifyReceivedMessage`. -/
def notifyReceivedMessage (s : NotifierState) (env : CreateEnv)
    (message : ChatMessage) : Option NotifyEffects × NotifierState :=
  match createNotification s .MessageReceived env with
  | (.created popup, s') =>
      (some { popup := popup
              data := [("message", .str message.text),
                       ("sipAddress", .str message.fromAddressUriOnly),
                       ("window", .mainWindow)]
              timeout := NOTIFICATION_TIMEOUT_RECEIVED_MESSAGE }, s')
  | (_, s') => (none, s')

/-- Lines 197-208: `Notifier::notifyReceivedFileMessage`. -/
def notifyReceivedFileMessage (s : NotifierState) (env : CreateEnv)
    (message : ChatMessage) : Option NotifyEffects × NotifierState :=
  match createNotification s .FileMessageReceived env with
  | (.created popup, s') =>
      (some { popup := popup
              data := [("fileUri", .str message.fileTransferFilepath),
                       ("fileSize", .uint message.fileTransferSize)]
              timeout := NOTIFICATION_TIMEOUT_RECEIVED_FILE_MESSAGE }, s')
  | (_, s') => (none, s')

/-- Lines 210-229: `Notifier::notifyReceivedCall`. -/
def notifyReceivedCall (s : NotifierState) (env : CreateEnv) :
    Option NotifyEffects × NotifierState :=
  match createNotification s .CallReceived env with
  | (.created popup, s') =>
      (some { popup := popup
              data := [("call", .callModel)]
              timeout := NOTIFICATION_TIMEOUT_RECEIVED_CALL }, s')
  | (_, s') => (none, s')

/-- Call statuses as seen by the handler on lines 217-222, which only
compares against `CallModel::CallStatusEnded`. -/
inductive CallStatus
  | CallStatusEnded
  | CallStatusOther
deriving DecidableEq, Repr

/-- Lines 217-222: the `statusChanged` handler connected by
`notifyReceivedCall` hides the notification window (triggering dismissal)
exactly when the status is `CallStatusEnded`. -/
def callStatusClosesNotification (status : CallStatus) : Bool :=
  status == CallStatus.CallStatusEnded

/-! ## Event-step view of the shared state -/

/-- One shared-state transition: a `createNotification` call or one firing of
the `visibleChanged` dismissal handler. -/
inductive Event
  | create (type : NotificationType) (env : CreateEnv)
  | dismiss
deriving DecidableEq, Repr

/-- The effect of one event on the mutex-guarded state. -/
def stepState (s : NotifierState) : Event → NotifierState
  | .create type env => (createNotification s type env).2
  | .dismiss => onVisibleChanged s

/-! ## Lock-discipline view

Each critical function body replayed as its sequence of primitive actions on
the mutex and on the shared members, in source order, including the
short-circuit of the condition on line 123: `setProperty` (which reads
`m_offset`) runs only when the height read did not fail. -/

/-- Primitive actions on the mutex and the shared members. -/
inductive MemAccess
  | lock
  | unlock
  | readInstances
  | writeInstances
  | readOffset
  | writeOffset
  | createObject
  | deleteObject
deriving DecidableEq, Repr

/-- Action sequence of `Notifier::createNotification` (lines 109-135) for a
given pre-state and environment. -/
def createNotificationSteps (s : NotifierState) (env : CreateEnv) :
    List MemAccess :=
  [.lock, .readInstances] ++
  if s.n_instances ≥ N_MAX_NOTIFICATIONS then
    [.unlock]
  else
    [.createObject] ++
    if getNotificationSize env.heightVariantToInt = -1 then
      [.deleteObject, .unlock]
    else if env.setOffsetPropertyOk = false then
      [.readOffset, .deleteObject, .unlock]
    else
      [.readOffset, .readOffset, .writeOffset,
       .readInstances, .writeInstances, .unlock]

/-- Action sequence of the `visibleChanged` lambda (lines 155-171) for a
given pre-state. -/
def onVisibleChangedSteps (s : NotifierState) : List MemAccess :=
  [.lock, .readInstances, .writeInstances, .readInstances] ++
  (if s.n_instances - 1 = 0 then [.writeOffset] else []) ++
  [.unlock]

/-- Whether an action touches a shared member (`m_n_instances` or
`m_offset`). -/
def isSharedAccess : MemAccess → Bool
  | .readInstances => true
  | .writeInstances => true
  | .readOffset => true
  | .writeOffset => true
  | _ => false

/-- Checks that along the action list every shared-member access happens
while the mutex is held, starting from the given holding state. -/
def accessesUnderLock : Bool → List MemAccess → Bool
  | _, [] => true
  | _, MemAccess.lock :: rest => accessesUnderLock true rest
  | _, MemAccess.unlock :: rest => accessesUnderLock false rest
  | held, a :: rest =>
      (!isSharedAccess a || held) && accessesUnderLock held rest

/-! ## Helper lemmas -/

/-- Characterization of the successful path of createNotification. -/
theorem createNotification_success_iff (s : NotifierState) (type : NotificationType)
    (env : CreateEnv) (popup : Popup) (s' : NotifierState) :
    createNotification s type env = (CreateResult.created popup, s') ↔
      s.n_instances < N_MAX_NOTIFICATIONS ∧
      getNotificationSize env.heightVariantToInt ≠ -1 ∧
      env.setOffsetPropertyOk = true ∧
      popup = ⟨type, s.offset, getNotificationSize env.heightVariantToInt⟩ ∧
      s' = ⟨s.n_instances + 1,
            (getNotificationSize env.heightVariantToInt + s.offset) + NOTIFICATION_SPACING⟩ := by
  simp only [createNotification]
  split_ifs with hcap hfail
  · constructor
    · intro h; simp [Prod.mk.injEq] at h
    · intro h; exact absurd h.1 (not_lt.mpr hcap)
  · constructor
    · intro h; simp [Prod.mk.injEq] at h
    · intro h
      rcases hfail with hf | hf
      · exact absurd hf h.2.1
      · rw [h.2.2.1] at hf; cases hf
  · push_neg at hfail
    simp only [Prod.mk.injEq, CreateResult.created.injEq]
    constructor
    · intro h
      refine ⟨lt_of_not_ge hcap, hfail.1, ?_, h.1.symm, h.2.symm⟩
      cases henv : env.setOffsetPropertyOk
      · exact absurd henv hfail.2
      · rfl
    · intro h
      exact ⟨h.2.2.2.1.symm, h.2.2.2.2.symm⟩

/-- A height value accepted by getNotificationSize is nonnegative. -/
theorem getNotificationSize_nonneg (v : Option Int)
    (h : getNotificationSize v ≠ -1) : 0 ≤ getNotificationSize v := by
  cases v with
  | none => exact absurd rfl h
  | some size =>
    simp only [getNotificationSize] at h ⊢
    split_ifs at h ⊢ with hs
    · exact absurd rfl h
    · omega

/-- createNotification never decreases the stacking offset. -/
theorem createNotification_offset_mono (s : NotifierState) (type : NotificationType)
    (env : CreateEnv) : s.offset ≤ (createNotification s type env).2.offset := by
  simp only [createNotification]
  split_ifs with h1 h2
  · exact le_refl _
  · exact le_refl _
  · push_neg at h2
    have hg := getNotificationSize_nonneg env.heightVariantToInt h2.1
    simp only [NOTIFICATION_SPACING]
    omega

/-! ## Claim theorems -/

/-- C1: for every call to createNotification, if the number of live
notification instances is already at the flat capacity N_MAX_NOTIFICATIONS
(15) or more, the call fails (returns null) and neither the instance counter
nor the layout offset is changed. -/
theorem C1_create_fails_at_capacity (s : NotifierState) (type : NotificationType)
    (env : CreateEnv) (h : s.n_instances ≥ N_MAX_NOTIFICATIONS) :
    createNotification s type env = (CreateResult.nullAtCapacity, s) ∧
    (createNotification s type env).1.isNull = true := by
  have hc : createNotification s type env = (CreateResult.nullAtCapacity, s) := by
    simp only [createNotification]
    rw [if_pos h]
  exact ⟨hc, by rw [hc]; rfl⟩

theorem C1_create_fails_at_capacity_witness :
    createNotification ⟨15, 30⟩ NotificationType.MessageReceived ⟨some 50, true⟩
      = (CreateResult.nullAtCapacity, ⟨15, 30⟩) ∧
    (createNotification ⟨15, 30⟩ NotificationType.MessageReceived ⟨some 50, true⟩).1.isNull
      = true :=
  C1_create_fails_at_capacity ⟨15, 30⟩ NotificationType.MessageReceived ⟨some 50, true⟩
    (by decide)

/-- C2: every successful createNotification assigns the current offset to the
new popup and advances the stored offset to the old offset plus the popup
height plus NOTIFICATION_SPACING (10), so the next popup is placed strictly
below the extent of this one. -/
theorem C2_successful_create_stacks (s : NotifierState) (type : NotificationType)
    (env : CreateEnv) (popup : Popup) (s' : NotifierState)
    (h : createNotification s type env = (CreateResult.created popup, s')) :
    popup.assignedOffset = s.offset ∧
    s'.offset = s.offset + popup.height + NOTIFICATION_SPACING ∧
    s.offset + popup.height < s'.offset := by
  obtain ⟨-, -, -, hp, hs⟩ := (createNotification_success_iff s type env popup s').mp h
  subst hp; subst hs
  refine ⟨rfl, ?_, ?_⟩ <;> simp only [NOTIFICATION_SPACING] <;> omega

theorem C2_successful_create_stacks_witness :
    (Popup.mk NotificationType.MessageReceived 0 50).assignedOffset
      = (NotifierState.mk 0 0).offset ∧
    (NotifierState.mk 1 60).offset
      = (NotifierState.mk 0 0).offset
        + (Popup.mk NotificationType.MessageReceived 0 50).height + NOTIFICATION_SPACING ∧
    (NotifierState.mk 0 0).offset + (Popup.mk NotificationType.MessageReceived 0 50).height
      < (NotifierState.mk 1 60).offset :=
  C2_successful_create_stacks ⟨0, 0⟩ NotificationType.MessageReceived ⟨some 50, true⟩
    ⟨NotificationType.MessageReceived, 0, 50⟩ ⟨1, 60⟩ (by decide)

/-- C3: when a dismissal leaves the live-instance count at zero the layout
offset is reset to zero, and when notifications remain the offset is left
unchanged. -/
theorem C3_dismiss_resets_offset_only_at_zero (s : NotifierState) :
    ((onVisibleChanged s).n_instances = 0 → (onVisibleChanged s).offset = 0) ∧
    ((onVisibleChanged s).n_instances ≠ 0 → (onVisibleChanged s).offset = s.offset) := by
  constructor
  · intro h
    simp only [onVisibleChanged] at h ⊢
    simp [h]
  · intro h
    simp only [onVisibleChanged] at h ⊢
    simp [h]

theorem C3_dismiss_resets_offset_only_at_zero_witness :
    (onVisibleChanged ⟨1, 42⟩).offset = 0 ∧
    (onVisibleChanged ⟨3, 42⟩).offset = (NotifierState.mk 3 42).offset :=
  ⟨(C3_dismiss_resets_offset_only_at_zero ⟨1, 42⟩).1 (by decide),
   (C3_dismiss_resets_offset_only_at_zero ⟨3, 42⟩).2 (by decide)⟩

/-- C4: the delay actually passed to the single-shot destruction timer never
exceeds MAX_TIMEOUT (60000 ms); any larger requested value is clamped to
that maximum. -/
theorem C4_scheduled_delay_bounded (timeout : Int) :
    (showNotification timeout).singleShotDelay ≤ MAX_TIMEOUT ∧
    (timeout > MAX_TIMEOUT → (showNotification timeout).singleShotDelay = MAX_TIMEOUT) := by
  simp only [showNotification]
  by_cases h : timeout > MAX_TIMEOUT
  · simp [h]
  · simp only [if_neg h]
    exact ⟨le_of_not_lt h, fun hc => absurd hc h⟩

theorem C4_scheduled_delay_bounded_witness :
    (showNotification 70000).singleShotDelay = MAX_TIMEOUT :=
  (C4_scheduled_delay_bounded 70000).2 (by decide)

/-- C5: every shown notification is scheduled for teardown: the single-shot
timer callback deletes the notification after the clamped timeout, and each
firing of the dismissal handler (window visibility change) decrements the
live-instance counter by exactly one. -/
theorem C5_teardown_on_timeout_or_dismissal (timeout : Int) (s : NotifierState) :
    (showNotification timeout).singleShotAction = TimerAction.deleteNotification ∧
    (showNotification timeout).singleShotDelay
      = (if timeout > MAX_TIMEOUT then MAX_TIMEOUT else timeout) ∧
    ((showNotification timeout).dismissHandler s).n_instances = s.n_instances - 1 :=
  ⟨rfl, rfl, rfl⟩

/-- Reading of claim C6 for the chat-message kind, following the spec words:
the data forwarded to the component holds only the message text and the
sender SIP address. -/
def specMessageDataOnlyDomain (message : ChatMessage)
    (data : List (String × QVariantValue)) : Prop :=
  data = [("message", .str message.text),
          ("sipAddress", .str message.fromAddressUriOnly)]

/-- C6 counterexample: on a concrete successful chat-message notification the
forwarded data map carries a third entry, a reference to the main application
window, so it is not only the message text and sender address. -/
theorem C6_counterexample :
    ((notifyReceivedMessage ⟨0, 0⟩ ⟨some 50, true⟩
        ⟨"hi", "sip:alice@example.org", "", 0⟩).1.map NotifyEffects.data) =
      some [("message", QVariantValue.str "hi"),
            ("sipAddress", QVariantValue.str "sip:alice@example.org"),
            ("window", QVariantValue.mainWindow)] ∧
    ¬ specMessageDataOnlyDomain ⟨"hi", "sip:alice@example.org", "", 0⟩
        [("message", QVariantValue.str "hi"),
         ("sipAddress", QVariantValue.str "sip:alice@example.org"),
         ("window", QVariantValue.mainWindow)] := by
  constructor
  · rfl
  · intro h
    simp [specMessageDataOnlyDomain] at h

/-- C6 (amended): each notify operation instantiates a component of the
matching kind and forwards the fixed data map — message text, sender SIP
address and a main-window reference for a chat message; file path and file
size for a file transfer; the call model for a call — and the status handler
connected for a call closes the notification exactly on CallStatusEnded. -/
theorem C6_notify_forwards_domain_data (s : NotifierState) (env : CreateEnv)
    (message : ChatMessage)
    (hcap : s.n_instances < N_MAX_NOTIFICATIONS)
    (hh : getNotificationSize env.heightVariantToInt ≠ -1)
    (hset : env.setOffsetPropertyOk = true) :
    (notifyReceivedMessage s env message).1 =
      some { popup := ⟨NotificationType.MessageReceived, s.offset,
                       getNotificationSize env.heightVariantToInt⟩
             data := [("message", .str message.text),
                      ("sipAddress", .str message.fromAddressUriOnly),
                      ("window", .mainWindow)]
             timeout := NOTIFICATION_TIMEOUT_RECEIVED_MESSAGE } ∧
    (notifyReceivedFileMessage s env message).1 =
      some { popup := ⟨NotificationType.FileMessageReceived, s.offset,
                       getNotificationSize env.heightVariantToInt⟩
             data := [("fileUri", .str message.fileTransferFilepath),
                      ("fileSize", .uint message.fileTransferSize)]
             timeout := NOTIFICATION_TIMEOUT_RECEIVED_FILE_MESSAGE } ∧
    (notifyReceivedCall s env).1 =
      some { popup := ⟨NotificationType.CallReceived, s.offset,
                       getNotificationSize env.heightVariantToInt⟩
             data := [("call", .callModel)]
             timeout := NOTIFICATION_TIMEOUT_RECEIVED_CALL } ∧
    (∀ status, callStatusClosesNotification status = true ↔
        status = CallStatus.CallStatusEnded) := by
  have hc : ∀ type, createNotification s type env =
      (CreateResult.created ⟨type, s.offset, getNotificationSize env.heightVariantToInt⟩,
       ⟨s.n_instances + 1,
        (getNotificationSize env.heightVariantToInt + s.offset) + NOTIFICATION_SPACING⟩) :=
    fun type =>
      (createNotification_success_iff s type env _ _).mpr ⟨hcap, hh, hset, rfl, rfl⟩
  refine ⟨?_, ?_, ?_, ?_⟩
  · simp [notifyReceivedMessage, hc]
  · simp [notifyReceivedFileMessage, hc]
  · simp [notifyReceivedCall, hc]
  · intro status
    cases status <;> simp [callStatusClosesNotification]

theorem C6_notify_forwards_domain_data_witness :
    (notifyReceivedMessage ⟨0, 0⟩ ⟨some 50, true⟩ ⟨"hi", "sip:a@b", "f.txt", 7⟩).1 =
      some { popup := ⟨NotificationType.MessageReceived, 0, getNotificationSize (some 50)⟩
             data := [("message", QVariantValue.str "hi"),
                      ("sipAddress", QVariantValue.str "sip:a@b"),
                      ("window", QVariantValue.mainWindow)]
             timeout := NOTIFICATION_TIMEOUT_RECEIVED_MESSAGE } :=
  (C6_notify_forwards_domain_data ⟨0, 0⟩ ⟨some 50, true⟩ ⟨"hi", "sip:a@b", "f.txt", 7⟩
    (by decide) (by decide) rfl).1

/-- C7: along every execution path of createNotification and of the dismissal
handler, every access to the live-instance counter or to the layout offset
happens while the mutex is held. -/
theorem C7_shared_state_under_lock (s : NotifierState) (env : CreateEnv) :
    accessesUnderLock false (createNotificationSteps s env) = true ∧
    accessesUnderLock false (onVisibleChangedSteps s) = true := by
  constructor
  · simp only [createNotificationSteps]
    split_ifs <;> rfl
  · simp only [onVisibleChangedSteps]
    split_ifs <;> rfl

/-- C8: when createNotification fails after instantiating the component
(height not readable as a nonnegative int, or the offset write fails), it
deletes the instance and returns null with the counter and the offset left
exactly as they were. -/
theorem C8_failed_create_leaves_state (s : NotifierState) (type : NotificationType)
    (env : CreateEnv)
    (hcap : s.n_instances < N_MAX_NOTIFICATIONS)
    (hfail : getNotificationSize env.heightVariantToInt = -1 ∨
             env.setOffsetPropertyOk = false) :
    createNotification s type env = (CreateResult.nullAfterDelete, s) ∧
    (createNotification s type env).1.isNull = true ∧
    (createNotification s type env).1.objectDeleted = true := by
  have hc : createNotification s type env = (CreateResult.nullAfterDelete, s) := by
    simp only [createNotification]
    split_ifs with h1
    · exact absurd h1 (not_le.mpr hcap)
    · rfl
  exact ⟨hc, by rw [hc]; rfl, by rw [hc]; rfl⟩

theorem C8_failed_create_leaves_state_witness :
    createNotification ⟨0, 5⟩ NotificationType.CallReceived ⟨none, true⟩
      = (CreateResult.nullAfterDelete, ⟨0, 5⟩) ∧
    (createNotification ⟨0, 5⟩ NotificationType.CallReceived ⟨none, true⟩).1.isNull = true ∧
    (createNotification ⟨0, 5⟩ NotificationType.CallReceived ⟨none, true⟩).1.objectDeleted
      = true :=
  C8_failed_create_leaves_state ⟨0, 5⟩ NotificationType.CallReceived ⟨none, true⟩
    (by decide) (Or.inl (by decide))

/-- C9: the timeout clamp is one-sided: every requested value less than or
equal to MAX_TIMEOUT, zero and negative values included, is passed to the
single-shot timer unmodified. -/
theorem C9_clamp_one_sided (timeout : Int) (h : timeout ≤ MAX_TIMEOUT) :
    (showNotification timeout).singleShotDelay = timeout := by
  simp only [showNotification]
  simp [not_lt.mpr h]

theorem C9_clamp_one_sided_witness :
    (showNotification (-5)).singleShotDelay = -5 ∧
    (showNotification 0).singleShotDelay = 0 :=
  ⟨C9_clamp_one_sided (-5) (by decide), C9_clamp_one_sided 0 (by decide)⟩

/-- C10: each successful createNotification advances the offset by the popup
height plus spacing, hence by at least 10; and the only event that ever
lowers the offset is a dismissal that brings the counter to zero and resets
the offset to zero. -/
theorem C10_offset_monotone (s : NotifierState) (type : NotificationType)
    (env : CreateEnv) (popup : Popup) (s' : NotifierState) (e : Event)
    (hsucc : createNotification s type env = (CreateResult.created popup, s'))
    (hdec : (stepState s e).offset < s.offset) :
    (0 ≤ popup.height ∧
     s'.offset = s.offset + popup.height + NOTIFICATION_SPACING ∧
     s.offset + 10 ≤ s'.offset) ∧
    (e = Event.dismiss ∧ (stepState s e).n_instances = 0 ∧
     (stepState s e).offset = 0) := by
  constructor
  · obtain ⟨-, hh, -, hp, hs⟩ := (createNotification_success_iff s type env popup s').mp hsucc
    subst hp; subst hs
    have hg := getNotificationSize_nonneg env.heightVariantToInt hh
    refine ⟨hg, ?_, ?_⟩ <;> simp only [NOTIFICATION_SPACING] <;> omega
  · cases e with
    | create t env2 =>
        simp only [stepState] at hdec
        exact absurd hdec (not_lt.mpr (createNotification_offset_mono s t env2))
    | dismiss =>
        simp only [stepState, onVisibleChanged] at hdec ⊢
        by_cases hz : s.n_instances - 1 = 0
        · simp [hz]
        · simp [hz] at hdec

theorem C10_offset_monotone_witness :
    ((0 : Int) ≤ (Popup.mk NotificationType.MessageReceived 60 50).height ∧
     (NotifierState.mk 2 120).offset
       = (NotifierState.mk 1 60).offset
         + (Popup.mk NotificationType.MessageReceived 60 50).height + NOTIFICATION_SPACING ∧
     (NotifierState.mk 1 60).offset + 10 ≤ (NotifierState.mk 2 120).offset) ∧
    (Event.dismiss = Event.dismiss ∧
     (stepState ⟨1, 60⟩ Event.dismiss).n_instances = 0 ∧
     (stepState ⟨1, 60⟩ Event.dismiss).offset = 0) :=
  C10_offset_monotone ⟨1, 60⟩ NotificationType.MessageReceived ⟨some 50, true⟩
    ⟨NotificationType.MessageReceived, 60, 50⟩ ⟨2, 120⟩ Event.dismiss
    (by decide) (by decide)
